import Mathlib

/-
Verification of the blog view functions in blog/views.py.

The repository defines three Django view handlers:

  def post_list(request):
      post="post"
      return render(request, 'post_list.html', {'posts': post})

  def custom_page_not_found_view(request, exception):
      return render(request, '404.html', status=404)

  def custom_500_view(request):
      return render(request, '500.html', status=500)

We embed the request/response objects shallowly, model the external
collaborator django.shortcuts.render (whose status argument defaults to
the success code 200 when omitted), and translate each handler body
directly.  A renderer-parametric translation of each handler captures
the fact that the bodies are parametric in what the external renderer
does, and a state-threaded translation captures that the bodies touch
no shared mutable state.
-/

namespace Blog

/-- A request object supplied by the external web framework.  The
handlers never inspect it, so we keep a few representative fields. -/
structure HttpRequest where
  method : String
  path : String
  headers : List (String × String)
deriving DecidableEq, Repr

/-- The exception value the framework hands to the 404 handler.  The
handler never inspects it. -/
structure HttpException where
  message : String
deriving DecidableEq, Repr

/-- A template context: a mapping of names to string values, as passed
to the template renderer. -/
abbrev Context := List (String × String)

/-- The rendered response: it records the request the renderer saw, the
template name, the context mapping passed (none when the caller passed
no context), and the HTTP status code. -/
structure HttpResponse where
  request : HttpRequest
  templateName : String
  context : Option Context
  statusCode : Nat
deriving DecidableEq, Repr

/-- Model of the external collaborator django.shortcuts.render.  The
Django signature is render(request, template_name, context=None,
status=None); when status is omitted the resulting HttpResponse carries
the success code 200.  Call sites below pass none explicitly where the
source omits the optional argument. -/
def render (request : HttpRequest) (templateName : String)
    (context : Option Context) (status : Option Nat) : HttpResponse :=
  { request := request
    templateName := templateName
    context := context
    statusCode := status.getD 200 }

/-- Translation of post_list: bind the local post to the placeholder
string and return the render of 'post_list.html' with the one-key
context, no explicit status. -/
def post_list (request : HttpRequest) : HttpResponse :=
  let post := "post"
  render request "post_list.html" (some [("posts", post)]) none

/-- Translation of custom_page_not_found_view: render '404.html' with
no context and status=404; the exception argument is never used. -/
def custom_page_not_found_view (request : HttpRequest)
    (exception : HttpException) : HttpResponse :=
  render request "404.html" none (some 404)

/-- Translation of custom_500_view: render '500.html' with no context
and status=500. -/
def custom_500_view (request : HttpRequest) : HttpResponse :=
  render request "500.html" none (some 500)

/-- The shape of the external renderer the handler bodies call: it
receives the request, the template name, the optional context and the
optional status, and produces whatever the framework produces. -/
def Renderer (α : Type) : Type :=
  HttpRequest → String → Option Context → Option Nat → α

/-- Renderer-parametric translation of post_list: the body is the same
source text, with the imported render abstracted as a parameter. -/
def post_listWith {α : Type} (ρ : Renderer α) (request : HttpRequest) : α :=
  let post := "post"
  ρ request "post_list.html" (some [("posts", post)]) none

/-- Renderer-parametric translation of custom_page_not_found_view. -/
def custom_page_not_found_viewWith {α : Type} (ρ : Renderer α)
    (request : HttpRequest) (exception : HttpException) : α :=
  ρ request "404.html" none (some 404)

/-- Renderer-parametric translation of custom_500_view. -/
def custom_500_viewWith {α : Type} (ρ : Renderer α)
    (request : HttpRequest) : α :=
  ρ request "500.html" none (some 500)

/-- Shared mutable state a handler could in principle read or write.
The handlers' bodies contain no global access, so the state-threaded
translations below pass it through untouched. -/
structure World where
  shared : List (String × String)
deriving DecidableEq, Repr

/-- State-threaded translation of post_list: the body performs no read
or write of shared state, so the world component is returned as
received. -/
def post_listSt (request : HttpRequest) (w : World) :
    HttpResponse × World :=
  let post := "post"
  (render request "post_list.html" (some [("posts", post)]) none, w)

/-- State-threaded translation of custom_page_not_found_view. -/
def custom_page_not_found_viewSt (request : HttpRequest)
    (exception : HttpException) (w : World) : HttpResponse × World :=
  (render request "404.html" none (some 404), w)

/-- State-threaded translation of custom_500_view. -/
def custom_500_viewSt (request : HttpRequest) (w : World) :
    HttpResponse × World :=
  (render request "500.html" none (some 500), w)

/-- A concrete request, used to instantiate universally quantified
statements. -/
def sampleRequest : HttpRequest :=
  { method := "GET", path := "/", headers := [] }

/-- A concrete exception value. -/
def sampleException : HttpException :=
  { message := "not found" }

/-- Claim C1: for every request, post_list returns exactly the
rendering of the fixed template 'post_list.html' with a context mapping
holding the single key 'posts' bound to the placeholder string "post"
(and no explicit status). -/
theorem post_list_renders_fixed_single_key_context (r : HttpRequest) :
    post_list r = render r "post_list.html" (some [("posts", "post")]) none ∧
    (post_list r).templateName = "post_list.html" ∧
    (post_list r).context = some [("posts", "post")] :=
  ⟨rfl, rfl, rfl⟩

/-- Claim C2: for every request and exception value, the not-found
handler returns exactly the rendering of '404.html' with status 404,
and the result does not depend on which exception value was supplied. -/
theorem custom_page_not_found_view_renders_404 (r : HttpRequest)
    (e : HttpException) :
    custom_page_not_found_view r e = render r "404.html" none (some 404) ∧
    (custom_page_not_found_view r e).statusCode = 404 ∧
    (custom_page_not_found_view r e).templateName = "404.html" ∧
    ∀ e' : HttpException,
      custom_page_not_found_view r e = custom_page_not_found_view r e' :=
  ⟨rfl, rfl, rfl, fun _ => rfl⟩

/-- Claim C3: for every request, the server-error handler returns
exactly the rendering of '500.html' with status 500. -/
theorem custom_500_view_renders_500 (r : HttpRequest) :
    custom_500_view r = render r "500.html" none (some 500) ∧
    (custom_500_view r).statusCode = 500 ∧
    (custom_500_view r).templateName = "500.html" :=
  ⟨rfl, rfl, rfl⟩

/-- Claim C4: for every request, post_list passes no explicit status to
the renderer, and the resulting response carries the implied success
status 200. -/
theorem post_list_status_200 (r : HttpRequest) :
    post_list r = render r "post_list.html" (some [("posts", "post")]) none ∧
    (post_list r).statusCode = 200 :=
  ⟨rfl, rfl⟩

/-- Claim C5: each of the three handlers is deterministic and
idempotent: two calls on equal inputs return equal outputs. -/
theorem handlers_deterministic (r₁ r₂ : HttpRequest)
    (e₁ e₂ : HttpException) (hr : r₁ = r₂) (he : e₁ = e₂) :
    post_list r₁ = post_list r₂ ∧
    custom_page_not_found_view r₁ e₁ = custom_page_not_found_view r₂ e₂ ∧
    custom_500_view r₁ = custom_500_view r₂ := by
  subst hr; subst he; exact ⟨rfl, rfl, rfl⟩

/-- Witness for claim C5 at a concrete request and exception. -/
theorem handlers_deterministic_witness :
    post_list sampleRequest = post_list sampleRequest ∧
    custom_page_not_found_view sampleRequest sampleException =
      custom_page_not_found_view sampleRequest sampleException ∧
    custom_500_view sampleRequest = custom_500_view sampleRequest :=
  handlers_deterministic sampleRequest sampleRequest
    sampleException sampleException rfl rfl

/-- Claim C6: the handlers are stateless: the state-threaded
translations return the world exactly as received, and the response
component does not depend on the world. -/
theorem handlers_stateless (r : HttpRequest) (e : HttpException)
    (w w' : World) :
    (post_listSt r w).2 = w ∧
    (post_listSt r w).1 = (post_listSt r w').1 ∧
    (custom_page_not_found_viewSt r e w).2 = w ∧
    (custom_page_not_found_viewSt r e w).1 =
      (custom_page_not_found_viewSt r e w').1 ∧
    (custom_500_viewSt r w).2 = w ∧
    (custom_500_viewSt r w).1 = (custom_500_viewSt r w').1 :=
  ⟨rfl, rfl, rfl, rfl, rfl, rfl⟩

/-- Claim C7: each handler's whole behaviour is one call to the
external renderer on the unmodified request with fixed arguments, whose
result is returned unmodified: for an arbitrary renderer ρ the
parametric translations equal the corresponding ρ application, the
concrete handlers are their instantiations at the render model, and the
request recorded in each response is the incoming one. -/
theorem handlers_single_render_data_flow {α : Type} (ρ : Renderer α)
    (r : HttpRequest) (e : HttpException) :
    post_listWith ρ r = ρ r "post_list.html" (some [("posts", "post")]) none ∧
    custom_page_not_found_viewWith ρ r e = ρ r "404.html" none (some 404) ∧
    custom_500_viewWith ρ r = ρ r "500.html" none (some 500) ∧
    post_list r = post_listWith render r ∧
    custom_page_not_found_view r e = custom_page_not_found_viewWith render r e ∧
    custom_500_view r = custom_500_viewWith render r ∧
    (post_list r).request = r ∧
    (custom_page_not_found_view r e).request = r ∧
    (custom_500_view r).request = r :=
  ⟨rfl, rfl, rfl, rfl, rfl, rfl, rfl, rfl, rfl⟩

/-- Claim C8: unlike post_list, whose context is the one-key mapping,
the not-found and server-error handlers pass no context mapping to the
renderer for any input. -/
theorem error_handlers_pass_no_context (r : HttpRequest)
    (e : HttpException) :
    (custom_page_not_found_view r e).context = none ∧
    (custom_500_view r).context = none ∧
    (post_list r).context = some [("posts", "post")] :=
  ⟨rfl, rfl, rfl⟩

/-- Claim C9: each handler body is total and branch-free and raises no
error of its own: over a fallible renderer the handler's result is
exactly the renderer's result, so the handler yields an error exactly
when the external render call does, and the concrete handlers always
return a response. -/
theorem handlers_total_no_own_error (r : HttpRequest) (e : HttpException)
    (ρ : Renderer (Except String HttpResponse)) :
    post_listWith ρ r = ρ r "post_list.html" (some [("posts", "post")]) none ∧
    custom_page_not_found_viewWith ρ r e = ρ r "404.html" none (some 404) ∧
    custom_500_viewWith ρ r = ρ r "500.html" none (some 500) ∧
    (∀ err : String,
      post_listWith ρ r = Except.error err ↔
        ρ r "post_list.html" (some [("posts", "post")]) none =
          Except.error err) ∧
    post_list r = render r "post_list.html" (some [("posts", "post")]) none ∧
    custom_page_not_found_view r e = render r "404.html" none (some 404) ∧
    custom_500_view r = render r "500.html" none (some 500) :=
  ⟨rfl, rfl, rfl, fun _ => Iff.rfl, rfl, rfl, rfl⟩

end Blog
